import Mathlib

/-!
Verification of the beam structural-adequacy core of the
Steel-vs-Aluminium decision tool (`src/app.py`).

The embedding models the material catalog (the `steel` and `aluminum`
dictionaries), the beam evaluator (`beam_udl_calculations`) and the
recommendation selector (the decision branch inside
`application_1_beam_udl`).  All arithmetic is carried out over `ℚ`
(exact real arithmetic; the source computes in IEEE doubles with no
rounding except at display).  Python raises `ZeroDivisionError` when a
float division has a zero denominator; the evaluator is therefore
embedded as an `Except`-valued function that reports that error exactly
when one of the two division sites of the source (`sigma = Mmax*c/I`,
`delta = 5*w*L^4/(384*E*I)`) has a zero denominator.
-/

set_option autoImplicit false

deriving instance DecidableEq for Except

namespace StructMat

/-- A material record, mirroring the Python dictionaries
(`name`, `tensile_strength`, `yield_strength`, `E`, `density`, `cost`,
`corrosion_rating`). -/
structure Material where
  name : String
  tensile_strength : ℚ
  yield_strength : ℚ
  E : ℚ
  density : ℚ
  cost : ℚ
  corrosion_rating : ℕ
deriving DecidableEq, Repr

/-- The `steel` dictionary of `src/app.py` (lines 16-24). -/
def steel : Material :=
  { name := "Steel", tensile_strength := 400, yield_strength := 250,
    E := 200, density := 7850, cost := 3, corrosion_rating := 2 }

/-- The `aluminum` dictionary of `src/app.py` (lines 26-34). -/
def aluminum : Material :=
  { name := "Aluminium", tensile_strength := 310, yield_strength := 275,
    E := 69, density := 2700, cost := 12, corrosion_rating := 5 }

/-- Value of the `FOS` entry: either a finite rational or the
`float("inf")` the source produces when `sigma_MPa <= 0`. -/
inductive FosVal where
  | finite (q : ℚ)
  | inf
deriving DecidableEq, Repr

/-- The dictionary returned by `beam_udl_calculations`
(keys `Mmax(Nm)`, `I(m4)`, `Stress(MPa)`, `FOS`, `Deflection(mm)`,
`Allowable(mm)`, `PASS?`, `Volume(m3)`, `Mass(kg)`, `Cost(RM)`). -/
structure BeamResult where
  maxMoment : ℚ
  momentOfInertia : ℚ
  bendingStressMPa : ℚ
  factorOfSafety : FosVal
  deflectionMm : ℚ
  allowableDeflectionMm : ℚ
  passes : Bool
  volumeM3 : ℚ
  massKg : ℚ
  totalCost : ℚ
deriving DecidableEq, Repr

/-- Errors the evaluator can be asked about.  The source can only raise
`ZeroDivisionError`; `invalidGeometry` is the error kind the spec's
error taxonomy prescribes (`InvalidGeometry`) and is included so that
its absence from the code's behaviour is statable. -/
inductive BeamError where
  | zeroDivisionError
  | invalidGeometry
deriving DecidableEq, Repr

/-- The arithmetic of `beam_udl_calculations` (`src/app.py` lines 39-86),
transcribed formula by formula.  Over `ℚ` every division is total, so
this core is wrapped below with the zero-denominator check Python
performs. -/
def beamCore (L w_kN_m b h : ℚ) (mat : Material) : BeamResult :=
  let w := w_kN_m * 1000
  let Mmax := w * L ^ 2 / 8
  let I := b * h ^ 3 / 12
  let c := h / 2
  let sigma := Mmax * c / I
  let sigma_MPa := sigma / 1000000
  let E := mat.E * 1000000000
  let sigma_y := mat.yield_strength
  let fos := if 0 < sigma_MPa then FosVal.finite (sigma_y / sigma_MPa) else FosVal.inf
  let delta := 5 * w * L ^ 4 / (384 * E * I)
  let delta_mm := delta * 1000
  let delta_allow := L / 360 * 1000
  let V := b * h * L
  let mass := mat.density * V
  let total_cost := mass * mat.cost
  { maxMoment := Mmax
    momentOfInertia := I
    bendingStressMPa := sigma_MPa
    factorOfSafety := fos
    deflectionMm := delta_mm
    allowableDeflectionMm := delta_allow
    passes := decide (delta_mm ≤ delta_allow)
    volumeM3 := V
    massKg := mass
    totalCost := total_cost }

/-- `beam_udl_calculations` with Python's division-by-zero semantics:
the run raises `ZeroDivisionError` exactly when a division site of the
source has a zero denominator (line 51 divides by `I`, line 62 by
`384*E*I`; the division of line 59 is guarded by `sigma_MPa > 0`).
The source contains no geometry validation. -/
def beam_udl_calculations (L w_kN_m b h : ℚ) (mat : Material) :
    Except BeamError BeamResult :=
  if b * h ^ 3 / 12 = 0 then .error .zeroDivisionError
  else if 384 * (mat.E * 1000000000) * (b * h ^ 3 / 12) = 0 then .error .zeroDivisionError
  else .ok (beamCore L w_kN_m b h mat)

/-- Labels a recommendation can carry. -/
inductive Winner where
  | Steel
  | Aluminium
deriving DecidableEq, Repr

/-- The four rationale tags of the selector's branches. -/
inductive Rationale where
  | ALU_FAILS_SERVICEABILITY
  | STEEL_FAILS_SERVICEABILITY
  | COST_EFFECTIVE
  | LIGHTER_OR_WEIGHT_PRIORITY
deriving DecidableEq, Repr

/-- A selector outcome: winning material plus rationale tag. -/
structure Recommendation where
  winner : Winner
  rationale : Rationale
deriving DecidableEq, Repr

/-- The decision branch of `application_1_beam_udl`
(`src/app.py` lines 114-126), with each `st.success` message replaced by
the (winner, rationale) pair it announces. -/
def selectWinner (steel_res alu_res : BeamResult) : Recommendation :=
  if steel_res.passes && !alu_res.passes then
    ⟨Winner.Steel, Rationale.ALU_FAILS_SERVICEABILITY⟩
  else if alu_res.passes && !steel_res.passes then
    ⟨Winner.Aluminium, Rationale.STEEL_FAILS_SERVICEABILITY⟩
  else if steel_res.totalCost < alu_res.totalCost then
    ⟨Winner.Steel, Rationale.COST_EFFECTIVE⟩
  else
    ⟨Winner.Aluminium, Rationale.LIGHTER_OR_WEIGHT_PRIORITY⟩

/-- The computation chain of `application_1_beam_udl`
(`src/app.py` lines 100-126): evaluate the beam for both catalog records
and select a winner. -/
def application_1_beam_udl (L w b h : ℚ) : Except BeamError Recommendation := do
  let steel_res ← beam_udl_calculations L w b h steel
  let alu_res ← beam_udl_calculations L w b h aluminum
  pure (selectWinner steel_res alu_res)

/-- Winner relabelling used to state the selector symmetry claim:
swapping the argument slots swaps which material each label denotes. -/
def mirrorWinner : Winner → Winner
  | Winner.Steel => Winner.Aluminium
  | Winner.Aluminium => Winner.Steel

/-- Rationale relabelling accompanying `mirrorWinner`: the two
serviceability tags trade places, as do the two tie-break tags. -/
def mirrorRationale : Rationale → Rationale
  | Rationale.ALU_FAILS_SERVICEABILITY => Rationale.STEEL_FAILS_SERVICEABILITY
  | Rationale.STEEL_FAILS_SERVICEABILITY => Rationale.ALU_FAILS_SERVICEABILITY
  | Rationale.COST_EFFECTIVE => Rationale.LIGHTER_OR_WEIGHT_PRIORITY
  | Rationale.LIGHTER_OR_WEIGHT_PRIORITY => Rationale.COST_EFFECTIVE

/-- Mirror of a recommendation under the slot swap. -/
def mirrorRec (r : Recommendation) : Recommendation :=
  ⟨mirrorWinner r.winner, mirrorRationale r.rationale⟩

/-- A bare result used to exercise the selector on concrete inputs:
only the fields the selector reads (`passes`, `totalCost`) vary. -/
def mkRes (p : Bool) (cost : ℚ) : BeamResult :=
  { maxMoment := 0, momentOfInertia := 0, bendingStressMPa := 0,
    factorOfSafety := FosVal.inf, deflectionMm := 0,
    allowableDeflectionMm := 0, passes := p, volumeM3 := 0,
    massKg := 0, totalCost := cost }

end StructMat

namespace StructMat

/-! ### Field-level descriptions of `beamCore` -/

theorem beamCore_maxMoment (L w b h : ℚ) (mat : Material) :
    (beamCore L w b h mat).maxMoment = w * 1000 * L ^ 2 / 8 := rfl

theorem beamCore_momentOfInertia (L w b h : ℚ) (mat : Material) :
    (beamCore L w b h mat).momentOfInertia = b * h ^ 3 / 12 := rfl

theorem beamCore_stress (L w b h : ℚ) (mat : Material) :
    (beamCore L w b h mat).bendingStressMPa =
      w * 1000 * L ^ 2 / 8 * (h / 2) / (b * h ^ 3 / 12) / 1000000 := rfl

theorem beamCore_fos (L w b h : ℚ) (mat : Material) :
    (beamCore L w b h mat).factorOfSafety =
      if 0 < (beamCore L w b h mat).bendingStressMPa then
        FosVal.finite (mat.yield_strength / (beamCore L w b h mat).bendingStressMPa)
      else FosVal.inf := rfl

theorem beamCore_deflectionMm (L w b h : ℚ) (mat : Material) :
    (beamCore L w b h mat).deflectionMm =
      5 * (w * 1000) * L ^ 4 / (384 * (mat.E * 1000000000) * (b * h ^ 3 / 12)) * 1000 := rfl

theorem beamCore_allowableDeflectionMm (L w b h : ℚ) (mat : Material) :
    (beamCore L w b h mat).allowableDeflectionMm = L / 360 * 1000 := rfl

theorem beamCore_passes (L w b h : ℚ) (mat : Material) :
    (beamCore L w b h mat).passes =
      decide ((beamCore L w b h mat).deflectionMm ≤
        (beamCore L w b h mat).allowableDeflectionMm) := rfl

theorem beamCore_volumeM3 (L w b h : ℚ) (mat : Material) :
    (beamCore L w b h mat).volumeM3 = b * h * L := rfl

theorem beamCore_massKg (L w b h : ℚ) (mat : Material) :
    (beamCore L w b h mat).massKg = mat.density * (b * h * L) := rfl

theorem beamCore_totalCost (L w b h : ℚ) (mat : Material) :
    (beamCore L w b h mat).totalCost = mat.density * (b * h * L) * mat.cost := rfl

/-- When no division site has a zero denominator the evaluator succeeds
and returns exactly the `beamCore` record. -/
theorem beam_ok (L w b h : ℚ) (mat : Material)
    (hI : b * h ^ 3 / 12 ≠ 0) (hE : mat.E ≠ 0) :
    beam_udl_calculations L w b h mat = Except.ok (beamCore L w b h mat) := by
  have h2 : 384 * (mat.E * 1000000000) * (b * h ^ 3 / 12) ≠ 0 :=
    mul_ne_zero (mul_ne_zero (by norm_num) (mul_ne_zero hE (by norm_num))) hI
  simp [beam_udl_calculations, hI, h2]

/-- A successful run of the evaluator always returns the `beamCore`
record. -/
theorem beam_ok_inv (L w b h : ℚ) (mat : Material) (r : BeamResult)
    (hr : beam_udl_calculations L w b h mat = Except.ok r) :
    r = beamCore L w b h mat := by
  by_cases h1 : b * h ^ 3 / 12 = 0
  · simp [beam_udl_calculations, h1] at hr
  · by_cases h2 : 384 * (mat.E * 1000000000) * (b * h ^ 3 / 12) = 0
    · simp [beam_udl_calculations, h1, h2] at hr
    · simp [beam_udl_calculations, h1, h2] at hr
      exact hr.symm

/-! ### Branch-level descriptions of `selectWinner` -/

theorem selectWinner_steel_only (s a : BeamResult)
    (h1 : s.passes = true) (h2 : a.passes = false) :
    selectWinner s a = ⟨Winner.Steel, Rationale.ALU_FAILS_SERVICEABILITY⟩ := by
  simp [selectWinner, h1, h2]

theorem selectWinner_alu_only (s a : BeamResult)
    (h1 : a.passes = true) (h2 : s.passes = false) :
    selectWinner s a = ⟨Winner.Aluminium, Rationale.STEEL_FAILS_SERVICEABILITY⟩ := by
  simp [selectWinner, h1, h2]

theorem selectWinner_tie_lt (s a : BeamResult)
    (hp : s.passes = a.passes) (hc : s.totalCost < a.totalCost) :
    selectWinner s a = ⟨Winner.Steel, Rationale.COST_EFFECTIVE⟩ := by
  cases ha : a.passes <;> rw [ha] at hp <;> simp [selectWinner, hp, ha, hc]

theorem selectWinner_tie_ge (s a : BeamResult)
    (hp : s.passes = a.passes) (hc : a.totalCost ≤ s.totalCost) :
    selectWinner s a = ⟨Winner.Aluminium, Rationale.LIGHTER_OR_WEIGHT_PRIORITY⟩ := by
  cases ha : a.passes <;> rw [ha] at hp <;>
    simp [selectWinner, hp, ha, not_lt.mpr hc]

/-- With a strictly cheaper steel slot the fixed tie-break label
`LIGHTER_OR_WEIGHT_PRIORITY` can never be announced. -/
theorem selectWinner_rationale_ne_lighter (s a : BeamResult)
    (hc : s.totalCost < a.totalCost) :
    (selectWinner s a).rationale ≠ Rationale.LIGHTER_OR_WEIGHT_PRIORITY := by
  cases h1 : (s.passes && !a.passes) <;> cases h2 : (a.passes && !s.passes) <;>
    simp [selectWinner, h1, h2, hc]

end StructMat

namespace StructMat

/-! ### Claim theorems -/

/-- C1: the Recommendation Selector evaluates its branches in order with
first match winning: steel passing alone gives Steel with
`ALU_FAILS_SERVICEABILITY`; aluminium passing alone gives Aluminium with
`STEEL_FAILS_SERVICEABILITY`; otherwise (both pass or both fail) it
compares `totalCost` — never mass — giving Steel with `COST_EFFECTIVE`
when `steelResult.totalCost < aluResult.totalCost` and otherwise
Aluminium with the fixed label `LIGHTER_OR_WEIGHT_PRIORITY`. -/
theorem selector_branch_order (s a : BeamResult) :
    (s.passes = true → a.passes = false →
      selectWinner s a = ⟨Winner.Steel, Rationale.ALU_FAILS_SERVICEABILITY⟩) ∧
    (a.passes = true → s.passes = false →
      selectWinner s a = ⟨Winner.Aluminium, Rationale.STEEL_FAILS_SERVICEABILITY⟩) ∧
    (s.passes = a.passes → s.totalCost < a.totalCost →
      selectWinner s a = ⟨Winner.Steel, Rationale.COST_EFFECTIVE⟩) ∧
    (s.passes = a.passes → a.totalCost ≤ s.totalCost →
      selectWinner s a = ⟨Winner.Aluminium, Rationale.LIGHTER_OR_WEIGHT_PRIORITY⟩) :=
  ⟨fun h1 h2 => selectWinner_steel_only s a h1 h2,
   fun h1 h2 => selectWinner_alu_only s a h1 h2,
   fun hp hc => selectWinner_tie_lt s a hp hc,
   fun hp hc => selectWinner_tie_ge s a hp hc⟩

/-- Witness for C1: the four branches exercised on concrete results. -/
theorem selector_branch_order_witness :
    selectWinner (mkRes true 1) (mkRes false 2) =
      ⟨Winner.Steel, Rationale.ALU_FAILS_SERVICEABILITY⟩ ∧
    selectWinner (mkRes false 1) (mkRes true 2) =
      ⟨Winner.Aluminium, Rationale.STEEL_FAILS_SERVICEABILITY⟩ ∧
    selectWinner (mkRes true 1) (mkRes true 2) =
      ⟨Winner.Steel, Rationale.COST_EFFECTIVE⟩ ∧
    selectWinner (mkRes true 2) (mkRes true 1) =
      ⟨Winner.Aluminium, Rationale.LIGHTER_OR_WEIGHT_PRIORITY⟩ :=
  ⟨(selector_branch_order (mkRes true 1) (mkRes false 2)).1 rfl rfl,
   (selector_branch_order (mkRes false 1) (mkRes true 2)).2.1 rfl rfl,
   (selector_branch_order (mkRes true 1) (mkRes true 2)).2.2.1 rfl (by norm_num [mkRes]),
   (selector_branch_order (mkRes true 2) (mkRes true 1)).2.2.2 rfl (by norm_num [mkRes])⟩

/-- C2 counterexample: at L=6, w=12, b=0.10, h=0.20 the steel run
returns `passes = true`, not `passes = false` as claimed (the steel
deflection is 15.1875 mm, below the 16.667 mm allowable). -/
theorem scenarioA_passes_cex :
    Except.map BeamResult.passes (beam_udl_calculations 6 12 (1/10) (1/5) steel) =
      Except.ok true := by
  norm_num [beam_udl_calculations, beamCore, steel, Except.map]

/-- C2 amended: at L=6, w=12, b=0.10, h=0.20 the steel run returns
Mmax = 54000 N·m, I = 1/15000 ≈ 6.6667e-5 m⁴ (not 6.6667e-4),
Stress = 81 MPa, FOS = 250/81 ≈ 3.086, Deflection = 243/16 = 15.1875 mm
(not 30.375), Allowable = 50/3 ≈ 16.667 mm, and passes = true
(not false). -/
theorem scenarioA_steel :
    beam_udl_calculations 6 12 (1/10) (1/5) steel =
      Except.ok
        { maxMoment := 54000
          momentOfInertia := 1/15000
          bendingStressMPa := 81
          factorOfSafety := FosVal.finite (250/81)
          deflectionMm := 243/16
          allowableDeflectionMm := 50/3
          passes := true
          volumeM3 := 3/25
          massKg := 942
          totalCost := 2826 } := by
  norm_num [beam_udl_calculations, beamCore, steel]

/-- C3 counterexample: at L=6, w=12, b=0.10, h=0.20 the pipeline's
rationale is `ALU_FAILS_SERVICEABILITY` (steel passes, aluminium fails),
not the claimed tie-break `COST_EFFECTIVE`. -/
theorem scenarioB_rationale_cex :
    Except.map Recommendation.rationale (application_1_beam_udl 6 12 (1/10) (1/5)) =
      Except.ok Rationale.ALU_FAILS_SERVICEABILITY := by
  norm_num [application_1_beam_udl, beam_udl_calculations, beamCore, steel, aluminum,
    selectWinner, Except.map, Bind.bind, Except.bind, Pure.pure, Except.pure]

/-- C3 amended: at L=6, w=12, b=0.10, h=0.20 the aluminium run returns
Stress = 81 MPa (equal to steel's), FOS = 275/81 ≈ 3.395,
Deflection = 2025/46 ≈ 44.02 mm (= 200/69 × steel's 15.1875 mm, not
88.04 mm), passes = false, mass = 324 kg and cost = 3888 RM (steel:
942 kg, 2826 RM); since steel passes and aluminium fails, the selector
returns Steel with rationale `ALU_FAILS_SERVICEABILITY`. -/
theorem scenarioB_alu :
    beam_udl_calculations 6 12 (1/10) (1/5) aluminum =
      Except.ok
        { maxMoment := 54000
          momentOfInertia := 1/15000
          bendingStressMPa := 81
          factorOfSafety := FosVal.finite (275/81)
          deflectionMm := 2025/46
          allowableDeflectionMm := 50/3
          passes := false
          volumeM3 := 3/25
          massKg := 324
          totalCost := 3888 } ∧
    application_1_beam_udl 6 12 (1/10) (1/5) =
      Except.ok ⟨Winner.Steel, Rationale.ALU_FAILS_SERVICEABILITY⟩ := by
  constructor
  · norm_num [beam_udl_calculations, beamCore, aluminum]
  · norm_num [application_1_beam_udl, beam_udl_calculations, beamCore, steel, aluminum,
      selectWinner, Bind.bind, Except.bind, Pure.pure, Except.pure]

end StructMat

namespace StructMat

/-- C4: whenever the evaluator returns a result, a computed stress
`sigma_MPa <= 0` yields `FOS = +infinity` (no division is performed:
the `inf` value is produced directly), and a positive stress yields
exactly `yieldStrength / sigma_MPa`. -/
theorem fos_rule (L w b h : ℚ) (mat : Material) (r : BeamResult)
    (hr : beam_udl_calculations L w b h mat = Except.ok r) :
    (r.bendingStressMPa ≤ 0 → r.factorOfSafety = FosVal.inf) ∧
    (0 < r.bendingStressMPa →
      r.factorOfSafety = FosVal.finite (mat.yield_strength / r.bendingStressMPa)) := by
  have hrr := beam_ok_inv L w b h mat r hr
  subst hrr
  rw [beamCore_fos]
  constructor
  · intro hs
    rw [if_neg (not_lt.mpr hs)]
  · intro hs
    rw [if_pos hs]

/-- Witness for C4: the positive-stress branch at the default input. -/
theorem fos_rule_witness :
    (beamCore 6 12 (1/10) (1/5) steel).factorOfSafety =
      FosVal.finite (steel.yield_strength /
        (beamCore 6 12 (1/10) (1/5) steel).bendingStressMPa) :=
  (fos_rule 6 12 (1/10) (1/5) steel (beamCore 6 12 (1/10) (1/5) steel)
    (beam_ok 6 12 (1/10) (1/5) steel (by norm_num) (by norm_num [steel]))).2
    (by rw [beamCore_stress]; norm_num)

/-- C5: for valid inputs (L > 0, w ≥ 0, b > 0, h > 0) and either
catalog record the evaluator succeeds, the returned `deflectionMm` and
`allowableDeflectionMm` are non-negative, and `passes` is exactly the
inclusive comparison `deflectionMm ≤ allowableDeflectionMm`. -/
theorem passes_rule (L w b h : ℚ) (mat : Material)
    (hL : 0 < L) (hw : 0 ≤ w) (hb : 0 < b) (hh : 0 < h)
    (hm : mat = steel ∨ mat = aluminum) :
    beam_udl_calculations L w b h mat = Except.ok (beamCore L w b h mat) ∧
    0 ≤ (beamCore L w b h mat).deflectionMm ∧
    0 ≤ (beamCore L w b h mat).allowableDeflectionMm ∧
    (beamCore L w b h mat).passes =
      decide ((beamCore L w b h mat).deflectionMm ≤
        (beamCore L w b h mat).allowableDeflectionMm) := by
  have hE : (0:ℚ) < mat.E := by
    rcases hm with h1 | h1 <;> rw [h1] <;> norm_num [steel, aluminum]
  have hI : (0:ℚ) < b * h ^ 3 / 12 := by positivity
  refine ⟨beam_ok L w b h mat hI.ne' hE.ne', ?_, ?_, beamCore_passes L w b h mat⟩
  · rw [beamCore_deflectionMm]
    positivity
  · rw [beamCore_allowableDeflectionMm]
    positivity

/-- Witness for C5: the property at the default input with steel. -/
theorem passes_rule_witness :
    beam_udl_calculations 6 12 (1/10) (1/5) steel =
      Except.ok (beamCore 6 12 (1/10) (1/5) steel) ∧
    0 ≤ (beamCore 6 12 (1/10) (1/5) steel).deflectionMm ∧
    0 ≤ (beamCore 6 12 (1/10) (1/5) steel).allowableDeflectionMm ∧
    (beamCore 6 12 (1/10) (1/5) steel).passes =
      decide ((beamCore 6 12 (1/10) (1/5) steel).deflectionMm ≤
        (beamCore 6 12 (1/10) (1/5) steel).allowableDeflectionMm) :=
  passes_rule 6 12 (1/10) (1/5) steel (by norm_num) (by norm_num) (by norm_num)
    (by norm_num) (Or.inl rfl)

/-- C6: the evaluator contains no geometry validation.  With L = -1 it
silently returns a computed result (no error of any kind), with b = 0
it propagates a bare `ZeroDivisionError`, and on no input whatsoever
does it produce the spec's `InvalidGeometry` error kind: every run is
either a success or a `ZeroDivisionError`. -/
theorem no_geometry_validation :
    beam_udl_calculations (-1) 12 (1/10) (1/5) steel =
      Except.ok (beamCore (-1) 12 (1/10) (1/5) steel) ∧
    beam_udl_calculations 6 12 0 (1/5) steel =
      Except.error BeamError.zeroDivisionError ∧
    ∀ L w b h : ℚ, ∀ mat : Material,
      beam_udl_calculations L w b h mat = Except.ok (beamCore L w b h mat) ∨
      beam_udl_calculations L w b h mat = Except.error BeamError.zeroDivisionError := by
  refine ⟨beam_ok (-1) 12 (1/10) (1/5) steel (by norm_num) (by norm_num [steel]), ?_, ?_⟩
  · norm_num [beam_udl_calculations]
  · intro L w b h mat
    unfold beam_udl_calculations
    split
    · exact Or.inr rfl
    · split
      · exact Or.inr rfl
      · exact Or.inl rfl

end StructMat

namespace StructMat

/-- C7 counterexample: with two identical passing results of equal cost
the selector answers the aluminium slot (`LIGHTER_OR_WEIGHT_PRIORITY`),
while the mirrored run — the swap is the identity here — would have to
answer the steel slot; the mirrored recommendation differs from the
actual one, so the selector is not commutative-safe at pairs of equal
cost and equal pass status. -/
theorem selector_mirror_cex :
    selectWinner (mkRes true 5) (mkRes true 5) =
      ⟨Winner.Aluminium, Rationale.LIGHTER_OR_WEIGHT_PRIORITY⟩ ∧
    mirrorRec (selectWinner (mkRes true 5) (mkRes true 5)) =
      ⟨Winner.Steel, Rationale.COST_EFFECTIVE⟩ := by
  constructor <;>
    norm_num [selectWinner, mkRes, mirrorRec, mirrorWinner, mirrorRationale]

/-- C7 amended: the selector is commutative-safe for every pair of
results that differ in total cost or in pass status: swapping the slots
and relabelling winners (and the paired rationale tags) reproduces the
original recommendation.  Only when the two results tie in both cost
and pass status does the mirror break — both orderings then reach the
tie-break and answer the aluminium slot. -/
theorem selector_mirror (s a : BeamResult)
    (hne : s.totalCost ≠ a.totalCost ∨ s.passes ≠ a.passes) :
    mirrorRec (selectWinner a s) = selectWinner s a := by
  rcases hne with hc | hp
  · rcases lt_or_gt_of_ne hc with h | h <;>
      cases hs : s.passes <;> cases ha : a.passes <;>
        simp [selectWinner, mirrorRec, mirrorWinner, mirrorRationale, hs, ha, h, asymm h]
  · cases hs : s.passes <;> cases ha : a.passes
    · exact absurd (hs.trans ha.symm) hp
    · simp [selectWinner, mirrorRec, mirrorWinner, mirrorRationale, hs, ha]
    · simp [selectWinner, mirrorRec, mirrorWinner, mirrorRationale, hs, ha]
    · exact absurd (hs.trans ha.symm) hp

/-- Witness for C7 (amended): the mirrored tie-break at distinct costs,
and the mirrored serviceability verdict at equal costs but distinct
pass statuses. -/
theorem selector_mirror_witness :
    mirrorRec (selectWinner (mkRes true 2) (mkRes true 1)) =
      selectWinner (mkRes true 1) (mkRes true 2) ∧
    mirrorRec (selectWinner (mkRes false 5) (mkRes true 5)) =
      selectWinner (mkRes true 5) (mkRes false 5) :=
  ⟨selector_mirror (mkRes true 1) (mkRes true 2) (Or.inl (by norm_num [mkRes])),
   selector_mirror (mkRes true 5) (mkRes false 5) (Or.inr (by norm_num [mkRes]))⟩

/-- C8: for every valid geometry (L > 0, b > 0, h > 0), any load and
either catalog record, the evaluator succeeds and the returned
`totalCost` equals `density * b * h * L * costPerMass` exactly. -/
theorem totalCost_rule (L w b h : ℚ) (mat : Material)
    (hL : 0 < L) (hb : 0 < b) (hh : 0 < h)
    (hm : mat = steel ∨ mat = aluminum) :
    beam_udl_calculations L w b h mat = Except.ok (beamCore L w b h mat) ∧
    (beamCore L w b h mat).totalCost = mat.density * b * h * L * mat.cost := by
  have hE : (0:ℚ) < mat.E := by
    rcases hm with h1 | h1 <;> rw [h1] <;> norm_num [steel, aluminum]
  have hI : (0:ℚ) < b * h ^ 3 / 12 := by positivity
  refine ⟨beam_ok L w b h mat hI.ne' hE.ne', ?_⟩
  rw [beamCore_totalCost]
  ring

/-- Witness for C8: the cost identity at the default input with
aluminium. -/
theorem totalCost_rule_witness :
    beam_udl_calculations 6 12 (1/10) (1/5) aluminum =
      Except.ok (beamCore 6 12 (1/10) (1/5) aluminum) ∧
    (beamCore 6 12 (1/10) (1/5) aluminum).totalCost =
      aluminum.density * (1/10) * (1/5) * 6 * aluminum.cost :=
  totalCost_rule 6 12 (1/10) (1/5) aluminum (by norm_num) (by norm_num)
    (by norm_num) (Or.inr rfl)

/-- C9: on any valid input the aluminium deflection is exactly 200/69
times the steel deflection (the elastic moduli being 200 and 69 GPa),
hence at least the steel deflection; so whenever aluminium passes steel
passes too, and the selector branch answering Aluminium with
`STEEL_FAILS_SERVICEABILITY` is unreachable for results coming from one
geometry and load. -/
theorem alu_deflection_rule (L w b h : ℚ)
    (hL : 0 < L) (hw : 0 ≤ w) (hb : 0 < b) (hh : 0 < h) :
    beam_udl_calculations L w b h steel = Except.ok (beamCore L w b h steel) ∧
    beam_udl_calculations L w b h aluminum = Except.ok (beamCore L w b h aluminum) ∧
    (beamCore L w b h aluminum).deflectionMm =
      (beamCore L w b h steel).deflectionMm * (200 / 69) ∧
    (beamCore L w b h steel).deflectionMm ≤ (beamCore L w b h aluminum).deflectionMm ∧
    ((beamCore L w b h aluminum).passes = true →
      (beamCore L w b h steel).passes = true) ∧
    (selectWinner (beamCore L w b h steel) (beamCore L w b h aluminum)).rationale ≠
      Rationale.STEEL_FAILS_SERVICEABILITY := by
  have hI : (0:ℚ) < b * h ^ 3 / 12 := by positivity
  have hratio : (beamCore L w b h aluminum).deflectionMm =
      (beamCore L w b h steel).deflectionMm * (200 / 69) := by
    rw [beamCore_deflectionMm, beamCore_deflectionMm]
    norm_num [steel, aluminum]
    field_simp [hI.ne']
    ring
  have hsteel_nonneg : 0 ≤ (beamCore L w b h steel).deflectionMm := by
    have hE : (0:ℚ) < steel.E := by norm_num [steel]
    rw [beamCore_deflectionMm]
    positivity
  have hmono : (beamCore L w b h steel).deflectionMm ≤
      (beamCore L w b h aluminum).deflectionMm := by
    rw [hratio]
    nlinarith [hsteel_nonneg]
  have himp : (beamCore L w b h aluminum).passes = true →
      (beamCore L w b h steel).passes = true := by
    intro hpa
    rw [beamCore_passes] at hpa ⊢
    rw [decide_eq_true_eq] at hpa ⊢
    calc (beamCore L w b h steel).deflectionMm
        ≤ (beamCore L w b h aluminum).deflectionMm := hmono
      _ ≤ (beamCore L w b h aluminum).allowableDeflectionMm := hpa
      _ = (beamCore L w b h steel).allowableDeflectionMm := rfl
  have h2 : ((beamCore L w b h aluminum).passes &&
      !(beamCore L w b h steel).passes) = false := by
    cases hpa : (beamCore L w b h aluminum).passes
    · simp
    · simp [himp hpa]
  refine ⟨beam_ok L w b h steel hI.ne' (by norm_num [steel]),
    beam_ok L w b h aluminum hI.ne' (by norm_num [aluminum]),
    hratio, hmono, himp, ?_⟩
  cases h1 : ((beamCore L w b h steel).passes &&
      !(beamCore L w b h aluminum).passes) <;> simp [selectWinner, h1, h2] <;>
    split <;> simp

/-- Witness for C9: the relation at the default input. -/
theorem alu_deflection_rule_witness :
    beam_udl_calculations 6 12 (1/10) (1/5) steel =
      Except.ok (beamCore 6 12 (1/10) (1/5) steel) ∧
    beam_udl_calculations 6 12 (1/10) (1/5) aluminum =
      Except.ok (beamCore 6 12 (1/10) (1/5) aluminum) ∧
    (beamCore 6 12 (1/10) (1/5) aluminum).deflectionMm =
      (beamCore 6 12 (1/10) (1/5) steel).deflectionMm * (200 / 69) ∧
    (beamCore 6 12 (1/10) (1/5) steel).deflectionMm ≤
      (beamCore 6 12 (1/10) (1/5) aluminum).deflectionMm ∧
    ((beamCore 6 12 (1/10) (1/5) aluminum).passes = true →
      (beamCore 6 12 (1/10) (1/5) steel).passes = true) ∧
    (selectWinner (beamCore 6 12 (1/10) (1/5) steel)
      (beamCore 6 12 (1/10) (1/5) aluminum)).rationale ≠
      Rationale.STEEL_FAILS_SERVICEABILITY :=
  alu_deflection_rule 6 12 (1/10) (1/5) (by norm_num) (by norm_num)
    (by norm_num) (by norm_num)

/-- C10: for every geometry of positive volume the steel cost
(23550 RM/m³) is strictly below the aluminium cost (32400 RM/m³), so
the tie-break branch always recommends Steel with `COST_EFFECTIVE` and
the outcome Aluminium / `LIGHTER_OR_WEIGHT_PRIORITY` never occurs with
the two fixed catalog records. -/
theorem steel_cheaper_rule (L w b h : ℚ)
    (hL : 0 < L) (hb : 0 < b) (hh : 0 < h) :
    beam_udl_calculations L w b h steel = Except.ok (beamCore L w b h steel) ∧
    beam_udl_calculations L w b h aluminum = Except.ok (beamCore L w b h aluminum) ∧
    (beamCore L w b h steel).totalCost < (beamCore L w b h aluminum).totalCost ∧
    ((beamCore L w b h steel).passes = (beamCore L w b h aluminum).passes →
      selectWinner (beamCore L w b h steel) (beamCore L w b h aluminum) =
        ⟨Winner.Steel, Rationale.COST_EFFECTIVE⟩) ∧
    (selectWinner (beamCore L w b h steel) (beamCore L w b h aluminum)).rationale ≠
      Rationale.LIGHTER_OR_WEIGHT_PRIORITY := by
  have hI : (0:ℚ) < b * h ^ 3 / 12 := by positivity
  have hV : (0:ℚ) < b * h * L := by positivity
  have hc : (beamCore L w b h steel).totalCost <
      (beamCore L w b h aluminum).totalCost := by
    rw [beamCore_totalCost, beamCore_totalCost]
    norm_num [steel, aluminum]
    nlinarith [hV]
  exact ⟨beam_ok L w b h steel hI.ne' (by norm_num [steel]),
    beam_ok L w b h aluminum hI.ne' (by norm_num [aluminum]), hc,
    fun hp => selectWinner_tie_lt _ _ hp hc,
    selectWinner_rationale_ne_lighter _ _ hc⟩

/-- Witness for C10: the cost dominance at the default geometry. -/
theorem steel_cheaper_rule_witness :
    beam_udl_calculations 6 12 (1/10) (1/5) steel =
      Except.ok (beamCore 6 12 (1/10) (1/5) steel) ∧
    beam_udl_calculations 6 12 (1/10) (1/5) aluminum =
      Except.ok (beamCore 6 12 (1/10) (1/5) aluminum) ∧
    (beamCore 6 12 (1/10) (1/5) steel).totalCost <
      (beamCore 6 12 (1/10) (1/5) aluminum).totalCost ∧
    ((beamCore 6 12 (1/10) (1/5) steel).passes =
        (beamCore 6 12 (1/10) (1/5) aluminum).passes →
      selectWinner (beamCore 6 12 (1/10) (1/5) steel)
          (beamCore 6 12 (1/10) (1/5) aluminum) =
        ⟨Winner.Steel, Rationale.COST_EFFECTIVE⟩) ∧
    (selectWinner (beamCore 6 12 (1/10) (1/5) steel)
      (beamCore 6 12 (1/10) (1/5) aluminum)).rationale ≠
      Rationale.LIGHTER_OR_WEIGHT_PRIORITY :=
  steel_cheaper_rule 6 12 (1/10) (1/5) (by norm_num) (by norm_num) (by norm_num)

end StructMat
